import Mathlib

/-!
Shallow embedding of the relationship- and policy-based authorization engine of
`open-hims` (`src/modules/authorization/`).  Each definition mirrors one Rust
item; the file then settles the frozen claims about that engine.

Modelling conventions used throughout:
* `Uuid` is modelled by its canonical string rendering (`Uuid::to_string`),
  so `Uuid::parse_str` applied to a rendered value is the identity; the claims
  never exercise malformed-uuid failures.
* `chrono::DateTime<Utc>` is modelled by `Timestamp`: an epoch number (used by
  all order comparisons such as `expires_at <= timestamp`) together with the
  clock fields (`hour`, `minute`, `second`) and the weekday, which the code
  reads through `.hour()`, `.time()` and `.weekday()`.
* `std::time::Instant` values (cache timestamps) are modelled as integers, and
  `elapsed()` as subtraction from a query-time instant.
* `f32` confidence values are modelled as exact rationals; the code only ever
  assigns the literals 0.0/0.1/0.8/0.9/1.0 and copies them around.
* SQL queries run against a table state `List DbRelationshipRow`, with
  `CURRENT_TIMESTAMP` passed in as `now`; database I/O failures are not
  modelled (queries are total on the table state).
* The audit sink (`store_audit_entry`) is modelled as always succeeding; it
  does not influence the response value.
-/

namespace Hims

/-- Canonical string rendering of a `uuid::Uuid`. -/
abbrev Uuid := String

/-- `chrono::Weekday`. -/
inductive Weekday where
  | Mon | Tue | Wed | Thu | Fri | Sat | Sun
  deriving DecidableEq, Repr

/-- `Display` for `chrono::Weekday` (three-letter abbreviation). -/
def Weekday.str : Weekday → String
  | .Mon => "Mon"
  | .Tue => "Tue"
  | .Wed => "Wed"
  | .Thu => "Thu"
  | .Fri => "Fri"
  | .Sat => "Sat"
  | .Sun => "Sun"

/-- `chrono::DateTime<Utc>` as read by the authorization module: `epoch`
carries the linear order used by comparisons, the remaining fields are the
projections `.hour()`, `.minute()`, `.second()`, `.weekday()`. -/
structure Timestamp where
  epoch : Int
  hour : Nat
  minute : Nat
  second : Nat
  weekday : Weekday
  deriving DecidableEq, Repr

/-- `relations.rs`: `Subject`. -/
inductive Subject where
  | User (id : Uuid)
  | Role (name : String)
  | Department (id : Uuid)
  | Organization (id : Uuid)
  | System (name : String)
  | Group (id : Uuid)
  deriving DecidableEq, Repr

/-- `relations.rs`: `Resource`. -/
inductive Resource where
  | Patient (id : Uuid)
  | MedicalRecord (id : Uuid)
  | Appointment (id : Uuid)
  | Department (id : Uuid)
  | Organization (id : Uuid)
  | Prescription (id : Uuid)
  | LabResult (id : Uuid)
  | ImagingStudy (id : Uuid)
  | Report (id : Uuid)
  | Billing (id : Uuid)
  | CarePlan (id : Uuid)
  | Encounter (id : Uuid)
  | ClinicalDecisionSupport (id : Uuid)
  | ResearchData (id : Uuid)
  | SystemConfig (name : String)
  deriving DecidableEq, Repr

/-- `relations.rs`: `Action`. -/
inductive Action where
  | Read | Write | Create | Delete | Search | Update
  | Prescribe | Diagnose | OrderTest | ViewResults | ModifyTreatment | ApproveTest
  | Schedule | Cancel | Approve | Reject | Audit | Configure
  | EmergencyAccess | BreakGlass
  | GenerateReport | ExportData | ViewAnalytics
  | ViewBilling | ProcessPayment | AdjustBilling
  | ResearchAccess | DeIdentify
  | ManageUsers | ManageRoles | ManagePermissions | BackupData | RestoreData
  | Custom (name : String)
  deriving DecidableEq, Repr

/-- `relations.rs`: `HealthcareRelation`. -/
inductive HealthcareRelation where
  | PrimaryPhysician | ConsultingPhysician | SpecialistReferral | AttendingNurse
  | CareTeamMember | EmergencyContact | Guardian | NextOfKin
  | DepartmentHead | DepartmentMember | HospitalAdmin | SystemAdmin
  | ChiefOfStaff | MedicalDirector
  | TreatingPhysician | OrderingPhysician | SupervisingPhysician
  | ConsultingSpecialist | SecondOpinion
  | ProxyAccess | DelegatedAccess | TemporaryAccess | ResearchAccess
  | BillingAccess | AuditAccess
  | LocationAccess | CrossLocationAccess | RemoteAccess
  | Manager | Subordinate | Peer | Colleague
  | Approver | Reviewer | Supervisor | Delegate
  | DataOwner | DataProcessor | DataController | DataSubject
  | Custom (name : String)
  deriving DecidableEq, Repr

/-- `impl Display for Subject`. -/
def Subject.str : Subject → String
  | .User id => "user:" ++ id
  | .Role role => "role:" ++ role
  | .Department id => "department:" ++ id
  | .Organization id => "organization:" ++ id
  | .System name => "system:" ++ name
  | .Group id => "group:" ++ id

/-- `impl Display for Resource`. -/
def Resource.str : Resource → String
  | .Patient id => "patient:" ++ id
  | .MedicalRecord id => "medical_record:" ++ id
  | .Appointment id => "appointment:" ++ id
  | .Department id => "department:" ++ id
  | .Organization id => "organization:" ++ id
  | .Prescription id => "prescription:" ++ id
  | .LabResult id => "lab_result:" ++ id
  | .ImagingStudy id => "imaging_study:" ++ id
  | .Report id => "report:" ++ id
  | .Billing id => "billing:" ++ id
  | .CarePlan id => "care_plan:" ++ id
  | .Encounter id => "encounter:" ++ id
  | .ClinicalDecisionSupport id => "clinical_decision_support:" ++ id
  | .ResearchData id => "research_data:" ++ id
  | .SystemConfig name => "system_config:" ++ name

/-- `impl Display for HealthcareRelation`. -/
def HealthcareRelation.str : HealthcareRelation → String
  | .PrimaryPhysician => "primary_physician"
  | .ConsultingPhysician => "consulting_physician"
  | .SpecialistReferral => "specialist_referral"
  | .AttendingNurse => "attending_nurse"
  | .CareTeamMember => "care_team_member"
  | .EmergencyContact => "emergency_contact"
  | .Guardian => "guardian"
  | .NextOfKin => "next_of_kin"
  | .DepartmentHead => "department_head"
  | .DepartmentMember => "department_member"
  | .HospitalAdmin => "hospital_admin"
  | .SystemAdmin => "system_admin"
  | .ChiefOfStaff => "chief_of_staff"
  | .MedicalDirector => "medical_director"
  | .TreatingPhysician => "treating_physician"
  | .OrderingPhysician => "ordering_physician"
  | .SupervisingPhysician => "supervising_physician"
  | .ConsultingSpecialist => "consulting_specialist"
  | .SecondOpinion => "second_opinion"
  | .ProxyAccess => "proxy_access"
  | .DelegatedAccess => "delegated_access"
  | .TemporaryAccess => "temporary_access"
  | .ResearchAccess => "research_access"
  | .BillingAccess => "billing_access"
  | .AuditAccess => "audit_access"
  | .LocationAccess => "location_access"
  | .CrossLocationAccess => "cross_location_access"
  | .RemoteAccess => "remote_access"
  | .Manager => "manager"
  | .Subordinate => "subordinate"
  | .Peer => "peer"
  | .Colleague => "colleague"
  | .Approver => "approver"
  | .Reviewer => "reviewer"
  | .Supervisor => "supervisor"
  | .Delegate => "delegate"
  | .DataOwner => "data_owner"
  | .DataProcessor => "data_processor"
  | .DataController => "data_controller"
  | .DataSubject => "data_subject"
  | .Custom name => name

/-- `impl FromStr for HealthcareRelation` (total: unknown strings become
`Custom`). -/
def HealthcareRelation.fromStr (s : String) : HealthcareRelation :=
  if s == "primary_physician" then .PrimaryPhysician
  else if s == "consulting_physician" then .ConsultingPhysician
  else if s == "specialist_referral" then .SpecialistReferral
  else if s == "attending_nurse" then .AttendingNurse
  else if s == "care_team_member" then .CareTeamMember
  else if s == "emergency_contact" then .EmergencyContact
  else if s == "guardian" then .Guardian
  else if s == "next_of_kin" then .NextOfKin
  else if s == "department_head" then .DepartmentHead
  else if s == "department_member" then .DepartmentMember
  else if s == "hospital_admin" then .HospitalAdmin
  else if s == "system_admin" then .SystemAdmin
  else if s == "chief_of_staff" then .ChiefOfStaff
  else if s == "medical_director" then .MedicalDirector
  else if s == "treating_physician" then .TreatingPhysician
  else if s == "ordering_physician" then .OrderingPhysician
  else if s == "supervising_physician" then .SupervisingPhysician
  else if s == "consulting_specialist" then .ConsultingSpecialist
  else if s == "second_opinion" then .SecondOpinion
  else if s == "proxy_access" then .ProxyAccess
  else if s == "delegated_access" then .DelegatedAccess
  else if s == "temporary_access" then .TemporaryAccess
  else if s == "research_access" then .ResearchAccess
  else if s == "billing_access" then .BillingAccess
  else if s == "audit_access" then .AuditAccess
  else if s == "location_access" then .LocationAccess
  else if s == "cross_location_access" then .CrossLocationAccess
  else if s == "remote_access" then .RemoteAccess
  else if s == "manager" then .Manager
  else if s == "subordinate" then .Subordinate
  else if s == "peer" then .Peer
  else if s == "colleague" then .Colleague
  else if s == "approver" then .Approver
  else if s == "reviewer" then .Reviewer
  else if s == "supervisor" then .Supervisor
  else if s == "delegate" then .Delegate
  else if s == "data_owner" then .DataOwner
  else if s == "data_processor" then .DataProcessor
  else if s == "data_controller" then .DataController
  else if s == "data_subject" then .DataSubject
  else .Custom s

/-- `healthcare_context.rs`: `SecurityLevel`. -/
inductive SecurityLevel where
  | Low | Medium | High | Maximum
  deriving DecidableEq, Repr

/-- `healthcare_context.rs`: `UrgencyLevel` (derives `Ord`: declaration
order `Routine < Urgent < Emergency < Critical`). -/
inductive UrgencyLevel where
  | Routine | Urgent | Emergency | Critical
  deriving DecidableEq, Repr

/-- The discriminant order underlying `UrgencyLevel`'s derived `Ord`. -/
def UrgencyLevel.toNat : UrgencyLevel → Nat
  | .Routine => 0
  | .Urgent => 1
  | .Emergency => 2
  | .Critical => 3

/-- `healthcare_context.rs`: `EmergencyType`. -/
inductive EmergencyType where
  | MedicalEmergency | CodeBlue | CodeRed | SystemFailure | SecurityBreach
  | NaturalDisaster | BreakGlass | AfterHoursEmergency | MassCasualty
  | Custom (name : String)
  deriving DecidableEq, Repr

/-- `healthcare_context.rs`: `WorkflowPriority`. -/
inductive WorkflowPriority where
  | Low | Normal | High | Critical
  deriving DecidableEq, Repr

/-- `healthcare_context.rs`: `ConnectionInfo`. -/
structure ConnectionInfo where
  is_vpn : Bool
  vpn_provider : Option String
  tls_info : Option String
  security_level : SecurityLevel
  deriving DecidableEq, Repr

/-- `healthcare_context.rs`: `LocationContext`.  GPS coordinates are not read
by any authorization code and are left out of the model. -/
structure LocationContext where
  hospital_id : Uuid
  department_id : Option Uuid
  building : Option String
  floor : Option String
  room : Option String
  timezone : Option String
  is_remote : Bool
  connection_info : Option ConnectionInfo
  deriving DecidableEq, Repr

/-- `healthcare_context.rs`: `WorkflowContext`. -/
structure WorkflowContext where
  workflow_id : String
  current_step : String
  initiated_by : Uuid
  priority : WorkflowPriority
  related_workflows : List String
  deriving DecidableEq, Repr

/-- `healthcare_context.rs`: `ClinicalContext`. -/
structure ClinicalContext where
  patient_id : Option Uuid
  encounter_id : Option Uuid
  care_plan_id : Option Uuid
  clinical_status : Option String
  urgency_level : UrgencyLevel
  care_team_members : List Uuid
  active_protocols : List String
  specialty : Option String
  workflow_context : Option WorkflowContext
  deriving DecidableEq, Repr

/-- `healthcare_context.rs`: `EmergencyContext`. -/
structure EmergencyContext where
  is_emergency : Bool
  emergency_type : Option EmergencyType
  declared_by : Option Uuid
  declared_at : Option Timestamp
  justification : Option String
  approval_required : Bool
  approved_by : Option Uuid
  approved_at : Option Timestamp
  expires_at : Option Timestamp
  deriving DecidableEq, Repr

/-- `healthcare_context.rs`: `RequestContext`.  The header map is modelled as
an association list. -/
structure RequestContext where
  session_id : Option String
  ip_address : Option String
  user_agent : Option String
  timestamp : Timestamp
  location : Option LocationContext
  clinical : Option ClinicalContext
  emergency : Option EmergencyContext
  audit_trail : List String
  headers : List (String × String)
  endpoint : Option String
  method : Option String
  deriving DecidableEq, Repr

/-- `RequestContext::is_emergency`. -/
def RequestContext.is_emergency (ctx : RequestContext) : Bool :=
  match ctx.emergency with
  | some e => e.is_emergency
  | none => false

/-- `RequestContext::get_urgency_level`. -/
def RequestContext.get_urgency_level (ctx : RequestContext) : UrgencyLevel :=
  match ctx.clinical with
  | some c => c.urgency_level
  | none => .Routine

/-- `RequestContext::is_remote_access`. -/
def RequestContext.is_remote_access (ctx : RequestContext) : Bool :=
  match ctx.location with
  | some l => l.is_remote
  | none => false

/-- `RequestContext::is_after_hours` (hour < 8 or hour > 18). -/
def RequestContext.is_after_hours (ctx : RequestContext) : Bool :=
  ctx.timestamp.hour < 8 || ctx.timestamp.hour > 18

/-- `RequestContext::is_weekend`. -/
def RequestContext.is_weekend (ctx : RequestContext) : Bool :=
  ctx.timestamp.weekday == .Sat || ctx.timestamp.weekday == .Sun

/-- `RequestContext::get_security_level`. -/
def RequestContext.get_security_level (ctx : RequestContext) : SecurityLevel :=
  match ctx.location with
  | some location =>
    match location.connection_info with
    | some conn_info => conn_info.security_level
    | none => if location.is_remote then .Medium else .High
  | none => .Low

/-- Second half of `RequestContext::validate`: the clinical-consistency
check performed after the emergency-consistency checks. -/
def RequestContext.validateClinical (ctx : RequestContext) : Except String Unit :=
  match ctx.clinical with
  | some clinical =>
    if clinical.urgency_level = .Critical && !ctx.is_emergency then
      .error ("Critical urgency level requires emergency context")
    else .ok ()
  | none => .ok ()

/-- `RequestContext::validate`. -/
def RequestContext.validate (ctx : RequestContext) : Except String Unit :=
  match ctx.emergency with
  | some emergency =>
    if emergency.is_emergency && emergency.justification.isNone then
      .error ("Emergency access requires justification")
    else if emergency.approval_required && emergency.approved_by.isNone then
      .error ("Emergency access requires approval")
    else
      match emergency.expires_at with
      | some expires_at =>
        if expires_at.epoch ≤ ctx.timestamp.epoch then
          .error ("Emergency access has expired")
        else RequestContext.validateClinical ctx
      | none => RequestContext.validateClinical ctx
  | none => RequestContext.validateClinical ctx

/-- Single-quote character, used when rendering `format!` strings such as
`Policy "{}" applied` whose Rust original quotes the name with ASCII quotes
(codepoint 39). -/
def sq : String := String.singleton (Char.ofNat 39)

/-- Double-quote character, used by `Debug` renderings of strings. -/
def dq : String := String.singleton (Char.ofNat 34)

/-- Opening brace, used by `Debug` renderings of struct-style enum variants. -/
def obr : String := String.singleton (Char.ofNat 123)

/-- Closing brace, used by `Debug` renderings of struct-style enum variants. -/
def cbr : String := String.singleton (Char.ofNat 125)

/-- `policies.rs`: `PolicyType`. -/
inductive PolicyType where
  | Default | RegulatoryCompliance | ClinicalProtocol | EmergencyAccess
  | BusinessHours | LocationBased | RoleBased | PatientConsent
  | DataProtection | AuditRequired | BreakGlass | ResourceSpecific
  | TimeBased | Custom (name : String)
  deriving DecidableEq, Repr

/-- `policies.rs`: `PolicyCondition`.  The Rust struct-variant
`TimeOfDay { start, end }` is modelled positionally (`start`, then `end`);
likewise `DateRange` and `Custom { key, value }`. -/
inductive PolicyCondition where
  | TimeOfDay (start stop : String)
  | DayOfWeek (days : List String)
  | DateRange (start stop : String)
  | AfterHours
  | Weekend
  | RequireLocation (locations : List String)
  | AllowedIpRanges (ranges : List String)
  | RemoteAccess
  | SecureConnection
  | MinimumSecurityLevel (level : SecurityLevel)
  | EmergencyDeclared
  | UrgencyLevel (level : UrgencyLevel)
  | PatientConsent
  | ClinicalContext (s : String)
  | BreakGlassActivated
  | RequireRole (role : String)
  | RequireRelation (relation : String)
  | DepartmentMembership (department : String)
  | MinimumClearanceLevel (level : Nat)
  | MultiFactorAuthentication
  | ResourceType (ty : String)
  | ResourceOwnership
  | DataClassification (c : String)
  | PatientRelated
  | AuditTrailRequired
  | SecondaryApproval
  | ReasonRequired
  | ComplianceFlag (flag : String)
  | WorkflowStep (step : String)
  | WorkflowPriority (priority : String)
  | Custom (key value : String)
  deriving DecidableEq, Repr

/-- `policies.rs`: `PolicyEffect`.  `TimeLimit` seconds are a `u64`. -/
inductive PolicyEffect where
  | Deny
  | Allow
  | RequireApproval
  | RequireSecondFactor
  | AuditOnly
  | Conditional (conditions : List PolicyCondition)
  | TimeLimit (seconds : Nat)
  | Restrict (restrictions : List String)
  deriving DecidableEq, Repr

/-- `policies.rs`: `HealthcarePolicy`. -/
structure HealthcarePolicy where
  id : String
  name : String
  description : String
  policy_type : PolicyType
  conditions : List PolicyCondition
  effect : PolicyEffect
  priority : Int
  is_active : Bool
  created_at : Timestamp
  updated_at : Timestamp
  metadata : List (String × String)
  deriving DecidableEq, Repr

/-- `policies.rs`: `PolicyDecision` (confidence is an `f32` in Rust, carried
exactly as a rational here). -/
structure PolicyDecision where
  decision : PolicyEffect
  applied_policies : List String
  reasons : List String
  requirements : List String
  confidence : ℚ
  restrictions : List String
  time_limit : Option Nat
  deriving DecidableEq, Repr

/-- `Debug` rendering of a list of strings, as in `["Monday", "Tuesday"]`. -/
def stringListDebug (xs : List String) : String :=
  "[" ++ String.intercalate (", ") (xs.map (fun s => dq ++ s ++ dq)) ++ "]"

/-- `Debug` rendering of `SecurityLevel`. -/
def SecurityLevel.debug : SecurityLevel → String
  | .Low => "Low"
  | .Medium => "Medium"
  | .High => "High"
  | .Maximum => "Maximum"

/-- `Debug` rendering of `UrgencyLevel`. -/
def UrgencyLevel.debug : UrgencyLevel → String
  | .Routine => "Routine"
  | .Urgent => "Urgent"
  | .Emergency => "Emergency"
  | .Critical => "Critical"

/-- `Debug` rendering of `PolicyCondition` (derived `Debug` in Rust); it is
used by `evaluate_policies` in the `Condition not met:` requirement text. -/
def PolicyCondition.debug : PolicyCondition → String
  | .TimeOfDay start stop =>
    "TimeOfDay " ++ obr ++ " start: " ++ dq ++ start ++ dq ++ ", end: " ++ dq ++ stop ++ dq ++ " " ++ cbr
  | .DayOfWeek days => "DayOfWeek(" ++ stringListDebug days ++ ")"
  | .DateRange start stop =>
    "DateRange " ++ obr ++ " start: " ++ dq ++ start ++ dq ++ ", end: " ++ dq ++ stop ++ dq ++ " " ++ cbr
  | .AfterHours => "AfterHours"
  | .Weekend => "Weekend"
  | .RequireLocation locations => "RequireLocation(" ++ stringListDebug locations ++ ")"
  | .AllowedIpRanges ranges => "AllowedIpRanges(" ++ stringListDebug ranges ++ ")"
  | .RemoteAccess => "RemoteAccess"
  | .SecureConnection => "SecureConnection"
  | .MinimumSecurityLevel level => "MinimumSecurityLevel(" ++ level.debug ++ ")"
  | .EmergencyDeclared => "EmergencyDeclared"
  | .UrgencyLevel level => "UrgencyLevel(" ++ level.debug ++ ")"
  | .PatientConsent => "PatientConsent"
  | .ClinicalContext s => "ClinicalContext(" ++ dq ++ s ++ dq ++ ")"
  | .BreakGlassActivated => "BreakGlassActivated"
  | .RequireRole role => "RequireRole(" ++ dq ++ role ++ dq ++ ")"
  | .RequireRelation relation => "RequireRelation(" ++ dq ++ relation ++ dq ++ ")"
  | .DepartmentMembership department => "DepartmentMembership(" ++ dq ++ department ++ dq ++ ")"
  | .MinimumClearanceLevel level => "MinimumClearanceLevel(" ++ toString level ++ ")"
  | .MultiFactorAuthentication => "MultiFactorAuthentication"
  | .ResourceType ty => "ResourceType(" ++ dq ++ ty ++ dq ++ ")"
  | .ResourceOwnership => "ResourceOwnership"
  | .DataClassification c => "DataClassification(" ++ dq ++ c ++ dq ++ ")"
  | .PatientRelated => "PatientRelated"
  | .AuditTrailRequired => "AuditTrailRequired"
  | .SecondaryApproval => "SecondaryApproval"
  | .ReasonRequired => "ReasonRequired"
  | .ComplianceFlag flag => "ComplianceFlag(" ++ dq ++ flag ++ dq ++ ")"
  | .WorkflowStep step => "WorkflowStep(" ++ dq ++ step ++ dq ++ ")"
  | .WorkflowPriority priority => "WorkflowPriority(" ++ dq ++ priority ++ dq ++ ")"
  | .Custom key value =>
    "Custom " ++ obr ++ " key: " ++ dq ++ key ++ dq ++ ", value: " ++ dq ++ value ++ dq ++ " " ++ cbr

/-- `chrono::NaiveTime::parse_from_str(s, "%H:%M")`: hours and minutes
separated by a colon, within range. -/
def parseTimeHM (s : String) : Option (Nat × Nat) :=
  match s.splitOn ":" with
  | [h, m] =>
    match h.toNat?, m.toNat? with
    | some hh, some mm => if hh < 24 && mm < 60 then some (hh, mm) else none
    | _, _ => none
  | _ => none

/-- Order on `chrono::NaiveTime` values `(hour, minute, second)`:
lexicographic less-or-equal. -/
def timeLE (a b : Nat × Nat × Nat) : Bool :=
  a.1 < b.1 || (a.1 == b.1 && (a.2.1 < b.2.1 || (a.2.1 == b.2.1 && a.2.2 ≤ b.2.2)))

/-- `HimsPolicyEngine::security_level_value`. -/
def security_level_value : SecurityLevel → Nat
  | .Low => 1
  | .Medium => 2
  | .High => 3
  | .Maximum => 4

/-- `HimsPolicyEngine::evaluate_condition`.  The Rust match ends with the
fall-through arm `_ => Ok(true)` for every condition kind it does not model;
the wildcard below is that arm. -/
def evaluate_condition (condition : PolicyCondition) (context : RequestContext) :
    Except String Bool :=
  match condition with
  | .TimeOfDay start stop =>
    match parseTimeHM start with
    | none => .error ("Invalid start time format")
    | some start_time =>
      match parseTimeHM stop with
      | none => .error ("Invalid end time format")
      | some end_time =>
        let current_time := (context.timestamp.hour, context.timestamp.minute, context.timestamp.second)
        .ok (timeLE (start_time.1, start_time.2, 0) current_time &&
             timeLE current_time (end_time.1, end_time.2, 0))
  | .DayOfWeek allowed_days =>
    .ok (allowed_days.contains context.timestamp.weekday.str)
  | .AfterHours => .ok context.is_after_hours
  | .Weekend => .ok context.is_weekend
  | .EmergencyDeclared => .ok context.is_emergency
  | .UrgencyLevel required_level =>
    .ok (context.get_urgency_level.toNat ≥ required_level.toNat)
  | .RemoteAccess => .ok context.is_remote_access
  | .SecureConnection =>
    .ok (match context.get_security_level with
         | .High => true
         | .Maximum => true
         | _ => false)
  | .MinimumSecurityLevel required_level =>
    .ok (security_level_value context.get_security_level ≥ security_level_value required_level)
  | .RequireLocation allowed_locations =>
    .ok (match context.location with
         | some location => allowed_locations.contains location.hospital_id
         | none => false)
  | .AuditTrailRequired => .ok (!context.audit_trail.isEmpty)
  | .ReasonRequired =>
    .ok (match context.emergency with
         | some emergency => emergency.justification.isSome
         | none => false)
  | .PatientRelated =>
    .ok (match context.clinical with
         | some clinical => clinical.patient_id.isSome
         | none => false)
  | .PatientConsent => .ok context.is_emergency
  | .BreakGlassActivated =>
    .ok (match context.emergency with
         | some emergency =>
           match emergency.emergency_type with
           | some .BreakGlass => true
           | _ => false
         | none => false)
  | _ => .ok true

/-- The `all_conditions_met` loop inside `evaluate_policies`: logical AND of
the policy's conditions, stopping at the first false or erroring condition. -/
def conditionsAllMet : List PolicyCondition → RequestContext → Except String Bool
  | [], _ => .ok true
  | c :: rest, ctx =>
    match evaluate_condition c ctx with
    | .error e => .error e
    | .ok true => conditionsAllMet rest ctx
    | .ok false => .ok false

/-- `all_conditions_met` for a policy. -/
def allConditionsMet (p : HealthcarePolicy) (ctx : RequestContext) : Except String Bool :=
  conditionsAllMet p.conditions ctx

/-- Requirements extracted from a `Conditional` effect inside
`evaluate_policies`: one `Condition not met:` line per failing subcondition. -/
def conditionalReqs : List PolicyCondition → RequestContext → Except String (List String)
  | [], _ => .ok []
  | c :: rest, ctx =>
    match evaluate_condition c ctx with
    | .error e => .error e
    | .ok b =>
      match conditionalReqs rest ctx with
      | .error e => .error e
      | .ok rs => .ok (if b then rs else ("Condition not met: " ++ c.debug) :: rs)

/-- Accumulator of the `evaluate_policies` loop (the six mutable locals). -/
structure EvalAcc where
  applicable_policies : List String
  applicable_effects : List (PolicyEffect × String × Int)
  reasons : List String
  requirements : List String
  restrictions : List String
  time_limit : Option Nat
  deriving DecidableEq, Repr

/-- Initial accumulator of the `evaluate_policies` loop. -/
def EvalAcc.init : EvalAcc :=
  ⟨[], [], [], [], [], none⟩

/-- Effect-specific accumulator update for an applying policy (the inner
`match &policy.effect` of `evaluate_policies`). -/
def applyEffectExtras (effect : PolicyEffect) (ctx : RequestContext) (acc : EvalAcc) :
    Except String EvalAcc :=
  match effect with
  | .RequireApproval =>
    .ok { acc with requirements := acc.requirements ++ [("Secondary approval required")] }
  | .RequireSecondFactor =>
    .ok { acc with requirements := acc.requirements ++ [("Multi-factor authentication required")] }
  | .TimeLimit seconds => .ok { acc with time_limit := some seconds }
  | .Restrict restriction_list => .ok { acc with restrictions := acc.restrictions ++ restriction_list }
  | .Conditional conditions =>
    match conditionalReqs conditions ctx with
    | .error e => .error e
    | .ok reqs => .ok { acc with requirements := acc.requirements ++ reqs }
  | _ => .ok acc

/-- The `for policy in &self.policies` loop of
`HimsPolicyEngine::evaluate_policies`. -/
def evalPoliciesLoop (ctx : RequestContext) : List HealthcarePolicy → EvalAcc → Except String EvalAcc
  | [], acc => .ok acc
  | policy :: rest, acc =>
    if !policy.is_active then evalPoliciesLoop ctx rest acc
    else
      match allConditionsMet policy ctx with
      | .error e => .error e
      | .ok false => evalPoliciesLoop ctx rest acc
      | .ok true =>
        let acc := { acc with
          applicable_policies := acc.applicable_policies ++ [policy.id],
          applicable_effects := acc.applicable_effects ++ [(policy.effect, policy.name, policy.priority)],
          reasons := acc.reasons ++ ["Policy " ++ sq ++ policy.name ++ sq ++ " applied"] }
        match applyEffectExtras policy.effect ctx acc with
        | .error e => .error e
        | .ok acc => evalPoliciesLoop ctx rest acc

/-- `HimsPolicyEngine::combine_effects`: stable sort by priority descending,
then the effect of the first element (or `Deny` for an empty list). -/
def combine_effects (effects : List (PolicyEffect × String × Int)) : PolicyEffect :=
  let sorted_effects := effects.mergeSort (fun a b => b.2.2 ≤ a.2.2)
  match sorted_effects.head? with
  | some (effect, _, _) => effect
  | none => .Deny

/-- `HimsPolicyEngine::evaluate_policies` (the subject, action and resource
parameters are unused by the Rust implementation). -/
def evaluate_policies (policies : List HealthcarePolicy) (context : RequestContext) :
    Except String PolicyDecision :=
  match evalPoliciesLoop context policies EvalAcc.init with
  | .error e => .error e
  | .ok acc =>
    let final_decision :=
      if acc.applicable_effects.isEmpty then PolicyEffect.Deny
      else combine_effects acc.applicable_effects
    let confidence : ℚ := if !acc.applicable_policies.isEmpty then 9/10 else 1/10
    .ok {
      decision := final_decision,
      applied_policies := acc.applicable_policies,
      reasons := acc.reasons,
      requirements := acc.requirements,
      confidence := confidence,
      restrictions := acc.restrictions,
      time_limit := acc.time_limit }

/-- `error.rs`: `AuthError`.  Variants carrying `sqlx`/`anyhow`/`uuid` error
payloads carry their message string here. -/
inductive AuthError where
  | Database (msg : String)
  | Validation (msg : String)
  | Storage (msg : String)
  | Uuid (msg : String)
  | AccessDenied
  | ResourceNotFound
  | InvalidPermissions
  | Configuration (msg : String)
  | AuthenticationRequired
  | Engine (msg : String)
  | PolicyEvaluation (msg : String)
  | RelationshipResolution (msg : String)
  | ContextValidation (msg : String)
  | MaxDepthExceeded
  | CircularDependency
  deriving DecidableEq, Repr

/-- One row of the `authorization_relations` table.  `resource_id` and
`subject_id` are UUID columns, carried as their canonical renderings;
`expires_at` is a nullable timestamp column carried as an epoch number. -/
structure DbRelationshipRow where
  resource_type : String
  resource_id : String
  relation : String
  subject_type : String
  subject_id : String
  is_active : Bool
  expires_at : Option Int
  created_at : Int
  created_by : Option Uuid
  deriving DecidableEq, Repr

/-- `PostgresAuthorizationStorage::resource_to_parts`. -/
def resource_to_parts : Resource → String × String
  | .Patient id => ("patient", id)
  | .MedicalRecord id => ("medical_record", id)
  | .Appointment id => ("appointment", id)
  | .Department id => ("department", id)
  | .Organization id => ("organization", id)
  | .Prescription id => ("prescription", id)
  | .LabResult id => ("lab_result", id)
  | .ImagingStudy id => ("imaging_study", id)
  | .Report id => ("report", id)
  | .Billing id => ("billing", id)
  | .CarePlan id => ("care_plan", id)
  | .Encounter id => ("encounter", id)
  | .ClinicalDecisionSupport id => ("clinical_decision_support", id)
  | .ResearchData id => ("research_data", id)
  | .SystemConfig name => ("system_config", name)

/-- `PostgresAuthorizationStorage::subject_to_parts`. -/
def subject_to_parts : Subject → String × String
  | .User id => ("user", id)
  | .Role role => ("role", role)
  | .Department id => ("department", id)
  | .Organization id => ("organization", id)
  | .System name => ("system", name)
  | .Group id => ("group", id)

/-- `PostgresAuthorizationStorage::parts_to_subject` (`Uuid::parse_str` on a
canonically rendered uuid is the identity in this model). -/
def parts_to_subject (ns id : String) : Except AuthError Subject :=
  if ns == "user" then .ok (.User id)
  else if ns == "role" then .ok (.Role id)
  else if ns == "department" then .ok (.Department id)
  else if ns == "organization" then .ok (.Organization id)
  else if ns == "system" then .ok (.System id)
  else if ns == "group" then .ok (.Group id)
  else .error (.Storage ("Unknown subject namespace: " ++ ns))

/-- The expiry filter of every relationship query:
`expires_at IS NULL OR expires_at > CURRENT_TIMESTAMP`. -/
def expiresOk (expires_at : Option Int) (now : Int) : Bool :=
  match expires_at with
  | none => true
  | some t => now < t

/-- Row filter of `relationships::CHECK_RELATIONSHIP` (and of
`FIND_RELATIONSHIPS_FOR_RESOURCE`): exact key match, `is_active = true`, and
the expiry filter. -/
def rowMatches (row : DbRelationshipRow) (now : Int) (resource_type resource_id relation : String) : Bool :=
  row.resource_type == resource_type && row.resource_id == resource_id &&
    row.relation == relation && row.is_active && expiresOk row.expires_at now

/-- `PostgresAuthorizationStorage::has_relationship`: the SQL `EXISTS` of
`CHECK_RELATIONSHIP` over the current table state. -/
def Storage.has_relationship (db : List DbRelationshipRow) (now : Int)
    (object : Resource) (relation : HealthcareRelation) (subject : Subject) : Bool :=
  db.any fun row =>
    rowMatches row now (resource_to_parts object).1 (resource_to_parts object).2
        relation.str &&
      row.subject_type == (subject_to_parts subject).1 &&
      row.subject_id == (subject_to_parts subject).2

/-- The `for row in rows` conversion loop of `find_direct_relationships`:
each row's subject parts are converted back to a `Subject`, errors
propagating. -/
def rowsToSubjects : List DbRelationshipRow → Except AuthError (List Subject)
  | [] => .ok []
  | row :: rest =>
    match parts_to_subject row.subject_type row.subject_id with
    | .error e => .error e
    | .ok subject =>
      match rowsToSubjects rest with
      | .error e => .error e
      | .ok subjects => .ok (subject :: subjects)

/-- `PostgresAuthorizationStorage::find_direct_relationships`: the rows of
`FIND_RELATIONSHIPS_FOR_RESOURCE` (key match, active, unexpired, ordered by
`created_at` descending), each converted back to a `Subject`. -/
def Storage.find_direct_relationships (db : List DbRelationshipRow) (now : Int)
    (object : Resource) (relation : HealthcareRelation) : Except AuthError (List Subject) :=
  rowsToSubjects
    ((db.filter fun row =>
        rowMatches row now (resource_to_parts object).1 (resource_to_parts object).2
          relation.str).mergeSort
      (fun a b => b.created_at ≤ a.created_at))

/-- `mod.rs`: `AuthorizationConfig`. -/
structure AuthorizationConfig where
  max_policy_evaluations : Nat
  max_relationship_depth : Nat
  enable_caching : Bool
  cache_ttl_seconds : Int
  enable_audit : Bool
  emergency_access_enabled : Bool
  max_cache_size : Nat
  enable_emergency_access : Bool
  max_relation_depth : Nat
  deriving DecidableEq, Repr

/-- `impl Default for AuthorizationConfig`. -/
def AuthorizationConfig.default : AuthorizationConfig where
  max_policy_evaluations := 1000
  max_relationship_depth := 10
  enable_caching := true
  cache_ttl_seconds := 300
  enable_audit := true
  emergency_access_enabled := true
  max_cache_size := 1000
  enable_emergency_access := true
  max_relation_depth := 10

/-- `mod.rs`: `SessionContext`. -/
structure SessionContext where
  user_id : Uuid
  session_id : String
  ip_address : Option String
  user_agent : Option String
  department_id : Option Uuid
  location_id : Option Uuid
  shift_id : Option Uuid
  mfa_verified : Bool
  risk_score : ℚ
  deriving DecidableEq, Repr

/-- `mod.rs`: `AuthorizationRequest`. -/
structure AuthorizationRequest where
  subject : Subject
  action : Action
  resource : Resource
  context : RequestContext
  session : SessionContext
  request_id : Option String
  deriving DecidableEq, Repr

/-- `audit.rs`: `AccessDecision`. -/
inductive AccessDecision where
  | Allow
  | Deny
  | RequireApproval
  | RequireMFA
  | AllowWithRestrictions
  | EmergencyAccess
  | BreakGlassAccess
  deriving DecidableEq, Repr

/-- `engine.rs`: `AuthorizationResponse`.  `evaluation_time_ms` is wall-clock
time and is fixed at 0 in the model; `time_limit` is the duration in
seconds. -/
structure AuthorizationResponse where
  allowed : Bool
  decision : AccessDecision
  reasons : List String
  requirements : List String
  time_limit : Option Nat
  restrictions : List String
  confidence : ℚ
  evaluation_time_ms : Nat
  request_id : Option String
  deriving DecidableEq, Repr

/-- Engine state: the relationship table, the policy list held by
`HimsPolicyEngine`, the configuration, and the relation cache (keyed by
`"{resource}#{relation}"`, holding cached subjects and the capture instant). -/
structure Engine where
  db : List DbRelationshipRow
  policies : List HealthcarePolicy
  config : AuthorizationConfig
  cache : List (String × List Subject × Int)
  deriving DecidableEq, Repr

/-- `HimsAuthorizationEngine::check_emergency_access`. -/
def check_emergency_access (config : AuthorizationConfig) (request : AuthorizationRequest) :
    Except AuthError Bool :=
  if !config.enable_emergency_access then .ok false
  else
    match request.context.emergency with
    | some emergency =>
      if emergency.is_emergency then
        if emergency.justification.isNone then
          .error (.Engine ("Emergency access requires justification"))
        else if emergency.approval_required && emergency.approved_by.isNone then
          .error (.Engine ("Emergency access requires approval"))
        else
          match emergency.expires_at with
          | some expires_at =>
            if expires_at.epoch ≤ request.context.timestamp.epoch then
              .error (.Engine ("Emergency access expired"))
            else .ok true
          | none => .ok true
      else .ok false
    | none => .ok false

/-- `HimsAuthorizationEngine::get_parent_relation`. -/
def get_parent_relation : HealthcareRelation → Option HealthcareRelation
  | .DepartmentHead => some .DepartmentMember
  | .ConsultingPhysician => some .PrimaryPhysician
  | .SupervisingPhysician => some .TreatingPhysician
  | _ => none

/-- `HimsAuthorizationEngine::check_department_membership` (stubbed to
`Ok(false)` in the source). -/
def check_department_membership (_resource : Resource) (_user_id : Uuid) :
    Except AuthError Bool :=
  .ok false

/-- `HimsAuthorizationEngine::check_care_team_membership` (stubbed to
`Ok(false)` in the source). -/
def check_care_team_membership (_resource : Resource) (_user_id : Uuid) :
    Except AuthError Bool :=
  .ok false

/-- `HimsAuthorizationEngine::get_required_relations`. -/
def get_required_relations (action : Action) (resource : Resource) : List HealthcareRelation :=
  match action, resource with
  | .Read, .Patient _ => [.PrimaryPhysician, .ConsultingPhysician, .AttendingNurse, .CareTeamMember]
  | .Write, .Patient _ => [.PrimaryPhysician, .TreatingPhysician]
  | .Prescribe, .Patient _ => [.PrimaryPhysician, .ConsultingPhysician]
  | .Schedule, .Appointment _ => [.PrimaryPhysician, .AttendingNurse, .DepartmentMember]
  | .ViewBilling, .Billing _ => [.BillingAccess, .HospitalAdmin]
  | _, _ => []

/-- The visited-set / cycle-detection key
`format!("{}#{}#{}", resource, relation, subject)`. -/
def tripleKey (resource : Resource) (relation : HealthcareRelation) (subject : Subject) : String :=
  resource.str ++ "#" ++ relation.str ++ "#" ++ subject.str

/-- The relation-cache key `format!("{}#{}", resource, relation)`. -/
def pairKey (resource : Resource) (relation : HealthcareRelation) : String :=
  resource.str ++ "#" ++ relation.str

/-- Lookup in the relation cache (a `HashMap` keyed by `pairKey`). -/
def cacheLookup (cache : List (String × List Subject × Int)) (key : String) :
    Option (List Subject × Int) :=
  match cache.find? (fun e => e.1 == key) with
  | some e => some e.2
  | none => none

/-- The computed-relationship step at the end of
`resolve_relationships` (`match relation` over `DepartmentMember` /
`CareTeamMember`, both delegating to the stubbed membership checks). -/
def computedRelationshipStep (resource : Resource) (subject : Subject)
    (relation : HealthcareRelation) : Except AuthError Bool :=
  match relation with
  | .DepartmentMember =>
    match subject with
    | .User user_id => check_department_membership resource user_id
    | _ => .ok false
  | .CareTeamMember =>
    match subject with
    | .User user_id => check_care_team_membership resource user_id
    | _ => .ok false
  | _ => .ok false

/-- Body of `HimsAuthorizationEngine::resolve_relationships`, written with an
explicit fuel argument `fuel = max_relation_depth - depth` so that the
recursion is structural: `fuel = 0` is exactly the source's entry guard
`depth >= self.config.max_relation_depth`.  Returns the result together with
the visited set (a `&mut HashSet` in Rust, threaded through the recursion
here).  `now` is the database clock, `inst` the `Instant` clock used for
cache staleness. -/
def resolveGo (eng : Engine) (now inst : Int) :
    Nat → Resource → Subject → HealthcareRelation → List String →
    Except AuthError (Bool × List String)
  | 0, _, _, _, _ => .error .MaxDepthExceeded
  | fuel + 1, resource, subject, relation, visited =>
    let cache_key := tripleKey resource relation subject
    if visited.contains cache_key then .error .CircularDependency
    else
      let visited := cache_key :: visited
      let cacheHit : Option Bool :=
        if eng.config.enable_caching then
          match cacheLookup eng.cache (pairKey resource relation) with
          | some (subjects, cached_at) =>
            if inst - cached_at < eng.config.cache_ttl_seconds then
              some (subjects.contains subject)
            else none
          | none => none
        else none
      match cacheHit with
      | some cached => .ok (cached, visited)
      | none =>
        if Storage.has_relationship eng.db now resource relation subject then
          .ok (true, visited)
        else
          match get_parent_relation relation with
          | some parent_relation =>
            match resolveGo eng now inst fuel resource subject parent_relation visited with
            | .error e => .error e
            | .ok (true, visited) => .ok (true, visited)
            | .ok (false, visited) =>
              match computedRelationshipStep resource subject relation with
              | .error e => .error e
              | .ok computed => .ok (computed, visited)
          | none =>
            match computedRelationshipStep resource subject relation with
            | .error e => .error e
            | .ok computed => .ok (computed, visited)

/-- `HimsAuthorizationEngine::resolve_relationships` at recursion depth
`depth`: the fuel encoding of the `depth >= max_relation_depth` guard. -/
def resolve_relationships (eng : Engine) (now inst : Int) (resource : Resource)
    (subject : Subject) (relation : HealthcareRelation) (visited : List String)
    (depth : Nat) : Except AuthError (Bool × List String) :=
  resolveGo eng now inst (eng.config.max_relation_depth - depth) resource subject relation visited

/-- The `for relation in required_relations` loop of `check` (AuditOnly
branch): each candidate relation is resolved from a fresh visited set and
depth 0; the first relation resolving true is returned. -/
def findFirstRelation (eng : Engine) (now inst : Int) (resource : Resource) (subject : Subject) :
    List HealthcareRelation → Except AuthError (Option HealthcareRelation)
  | [] => .ok none
  | relation :: rest =>
    match resolve_relationships eng now inst resource subject relation [] 0 with
    | .error e => .error e
    | .ok (true, _) => .ok (some relation)
    | .ok (false, _) => findFirstRelation eng now inst resource subject rest

/-- The `allowed` predicate of `check`:
`matches!(decision, Allow | EmergencyAccess | AllowWithRestrictions)`. -/
def decisionAllowed : AccessDecision → Bool
  | .Allow => true
  | .EmergencyAccess => true
  | .AllowWithRestrictions => true
  | _ => false

/-- Assembly of the `AuthorizationResponse` at the end of `check`
(`evaluation_time_ms` fixed at 0 in the model). -/
def mkResponse (decision : AccessDecision) (reasons requirements : List String)
    (time_limit : Option Nat) (restrictions : List String) (confidence : ℚ)
    (request_id : Option String) : AuthorizationResponse where
  allowed := decisionAllowed decision
  decision := decision
  reasons := reasons
  requirements := requirements
  time_limit := time_limit
  restrictions := restrictions
  confidence := confidence
  evaluation_time_ms := 0
  request_id := request_id

/-- `HimsAuthorizationEngine::check`.  The trailing `audit_decision` call is
modelled as always succeeding (it does not alter the response); `now` is the
database clock, `inst` the `Instant` clock for the relation cache. -/
def check (eng : Engine) (now inst : Int) (request : AuthorizationRequest) :
    Except AuthError AuthorizationResponse :=
  match request.context.validate with
  | .error e => .error (.ContextValidation e)
  | .ok () =>
    match check_emergency_access eng.config request with
    | .error e => .error e
    | .ok true =>
      .ok (mkResponse .EmergencyAccess ["Emergency access granted"] [] none [] 1
        request.request_id)
    | .ok false =>
      match evaluate_policies eng.policies request.context with
      | .error e => .error (.PolicyEvaluation e)
      | .ok policy_decision =>
        match policy_decision.decision with
        | .Allow =>
          .ok (mkResponse .Allow policy_decision.reasons [] none []
            policy_decision.confidence request.request_id)
        | .Deny =>
          .ok (mkResponse .Deny policy_decision.reasons [] none []
            policy_decision.confidence request.request_id)
        | .RequireApproval =>
          .ok (mkResponse .RequireApproval [] policy_decision.requirements none []
            policy_decision.confidence request.request_id)
        | .RequireSecondFactor =>
          .ok (mkResponse .RequireMFA [] [("Multi-factor authentication required")] none []
            policy_decision.confidence request.request_id)
        | .AuditOnly =>
          match findFirstRelation eng now inst request.resource request.subject
              (get_required_relations request.action request.resource) with
          | .error e => .error e
          | .ok (some relation) =>
            .ok (mkResponse .Allow
              ["Access granted via " ++ relation.str ++ " relationship"] [] none []
              (8/10) request.request_id)
          | .ok none =>
            .ok (mkResponse .Deny ["No valid relationship found"] [] none [] (9/10)
              request.request_id)
        | .TimeLimit seconds =>
          .ok (mkResponse .AllowWithRestrictions [] [] (some seconds)
            ["Time limit: " ++ toString seconds ++ " seconds"]
            policy_decision.confidence request.request_id)
        | .Restrict restriction_list =>
          .ok (mkResponse .AllowWithRestrictions [] [] none restriction_list
            policy_decision.confidence request.request_id)
        | .Conditional _ =>
          .ok (mkResponse
            (if policy_decision.requirements.isEmpty then .Allow else .RequireApproval)
            [] policy_decision.requirements none []
            policy_decision.confidence request.request_id)

/-- `HimsAuthorizationEngine::has_relationship` (trait method): a direct
pass-through to the storage existence check. -/
def Engine.has_relationship (eng : Engine) (now : Int) (object : Resource)
    (relation : HealthcareRelation) (subject : Subject) : Except AuthError Bool :=
  .ok (Storage.has_relationship eng.db now object relation subject)

/-- `HimsAuthorizationEngine::expand` (the cache write-through does not
affect the returned subjects). -/
def Engine.expand (eng : Engine) (now : Int) (resource : Resource)
    (relation : HealthcareRelation) : Except AuthError (List Subject) :=
  Storage.find_direct_relationships eng.db now resource relation

/-! Statement-side definitions: predicates used to state the claims (not
translations of Rust items). -/

/-- Classifier for the condition kinds that `evaluate_condition` does not
explicitly model (the kinds named by the fail-open claim); they all hit the
wildcard `_ => Ok(true)` arm. -/
def defaultTrueCond : PolicyCondition → Bool
  | .DateRange _ _ => true
  | .AllowedIpRanges _ => true
  | .RequireRole _ => true
  | .RequireRelation _ => true
  | .DepartmentMembership _ => true
  | .MinimumClearanceLevel _ => true
  | .MultiFactorAuthentication => true
  | .ResourceType _ => true
  | .ResourceOwnership => true
  | .DataClassification _ => true
  | .SecondaryApproval => true
  | .ComplianceFlag _ => true
  | .WorkflowStep _ => true
  | .WorkflowPriority _ => true
  | .Custom _ _ => true
  | _ => false

/-- A policy applies to a context: it is active and all of its conditions
evaluate to true (the test performed by the `evaluate_policies` loop). -/
def policyApplies (p : HealthcarePolicy) (ctx : RequestContext) : Bool :=
  p.is_active &&
    (match allConditionsMet p ctx with
     | .ok true => true
     | _ => false)

/-- Reachability along the static parent-relation chain of
`get_parent_relation` (reflexive-transitive closure). -/
inductive ParentReachable : HealthcareRelation → HealthcareRelation → Prop where
  | refl (r : HealthcareRelation) : ParentReachable r r
  | step {r p q : HealthcareRelation} :
      get_parent_relation r = some p → ParentReachable p q → ParentReachable r q

/-! Concrete fixtures used by the counterexamples and witnesses. -/

/-- A weekday mid-morning timestamp (not after hours, not a weekend). -/
def ts0 : Timestamp := ⟨1000, 10, 0, 0, .Mon⟩

/-- A minimal valid, non-emergency request context. -/
def ctx0 : RequestContext :=
  ⟨none, none, none, ts0, none, none, none, [], [], none, none⟩

/-- A minimal session. -/
def sess0 : SessionContext :=
  ⟨"U1", "S1", none, none, none, none, none, false, 0⟩

/-- Subject `User(U1)` reading `Patient(P1)` in context `ctx0`. -/
def req0 : AuthorizationRequest :=
  ⟨.User ("U1"), .Read, .Patient ("P1"), ctx0, sess0, none⟩

/-- The active, non-expiring tuple `{Patient(P1), CareTeamMember, User(U1)}`. -/
def rowCTM : DbRelationshipRow :=
  ⟨"patient", "P1", "care_team_member", "user", "U1", true, none, 0, none⟩

/-- Engine with the `rowCTM` tuple and no policies configured. -/
def engNoPolicies : Engine := ⟨[rowCTM], [], AuthorizationConfig.default, []⟩

/-- An always-applying active policy with effect `AuditOnly` (defers to
relationship resolution). -/
def auditPolicy : HealthcarePolicy :=
  ⟨"p-audit", "Audit Everything", "", .Default, [], .AuditOnly, 50, true, ts0, ts0, []⟩

/-- Engine with the `rowCTM` tuple and the single `auditPolicy`. -/
def engAuditOnly : Engine := ⟨[rowCTM], [auditPolicy], AuthorizationConfig.default, []⟩

/-- An active Allow policy gated on `AfterHours` (fails against `ctx0`). -/
def afterHoursAllowPolicy : HealthcarePolicy :=
  ⟨"p-ah", "After Hours Allow", "", .TimeBased, [.AfterHours], .Allow, 50, true, ts0, ts0, []⟩

/-- Engine whose single active policy does not apply to `ctx0`. -/
def engAfterHours : Engine := ⟨[rowCTM], [afterHoursAllowPolicy], AuthorizationConfig.default, []⟩

/-- Always-applying Allow policy of priority 50. -/
def allowPolicy50 : HealthcarePolicy :=
  ⟨"p-allow", "Allow Fifty", "", .Default, [], .Allow, 50, true, ts0, ts0, []⟩

/-- Always-applying Deny policy of priority 90. -/
def denyPolicy90 : HealthcarePolicy :=
  ⟨"p-deny", "Deny Ninety", "", .Default, [], .Deny, 90, true, ts0, ts0, []⟩

/-- A policy gated only on unmodeled condition kinds. -/
def unmodeledPolicy : HealthcarePolicy :=
  ⟨"p-un", "Unmodeled Gates", "", .Default,
    [.Custom ("k") ("v"), .SecondaryApproval, .RequireRole ("physician")],
    .Allow, 10, true, ts0, ts0, []⟩

/-- A valid emergency context: declared, justified, no approval needed,
expiring after `ts0`. -/
def emCtx : EmergencyContext :=
  ⟨true, some .MedicalEmergency, some ("U9"), some ts0, some ("life threatening"),
    false, none, none, some ⟨2000, 11, 0, 0, .Mon⟩⟩

/-- `ctx0` with the emergency declared. -/
def ctxEm : RequestContext :=
  ⟨none, none, none, ts0, none, none, some emCtx, [], [], none, none⟩

/-- The `req0` access attempt under the declared emergency. -/
def reqEm : AuthorizationRequest :=
  ⟨.User ("U1"), .Read, .Patient ("P1"), ctxEm, sess0, none⟩

/-- An always-applying active Deny policy (would deny any non-emergency
request). -/
def denyAllPolicy : HealthcarePolicy :=
  ⟨"p-denyall", "Deny All", "", .Default, [], .Deny, 99, true, ts0, ts0, []⟩

/-- Engine holding only the always-applying Deny policy. -/
def engDenyAll : Engine := ⟨[], [denyAllPolicy], AuthorizationConfig.default, []⟩

/-- Active, non-expired tuple `{Department(D1), DepartmentHead, User(U1)}`. -/
def rowDH : DbRelationshipRow :=
  ⟨"department", "D1", "department_head", "user", "U1", true, none, 0, none⟩

/-- Active, non-expired tuple `{Department(D1), DepartmentMember, User(U1)}`. -/
def rowDM : DbRelationshipRow :=
  ⟨"department", "D1", "department_member", "user", "U1", true, none, 0, none⟩

/-- Engine whose store holds only the DepartmentHead tuple. -/
def engDH : Engine := ⟨[rowDH], [], AuthorizationConfig.default, []⟩

/-- Engine whose store holds only the DepartmentMember tuple. -/
def engDM : Engine := ⟨[rowDM], [], AuthorizationConfig.default, []⟩

/-- The `rowCTM` tuple with `expires_at` = 5: expired at any query time
`now ≥ 5`, but never removed (`is_active` still true). -/
def rowExpired : DbRelationshipRow :=
  ⟨"patient", "P1", "care_team_member", "user", "U1", true, some 5, 0, none⟩

/-! Helper lemmas shared by the claim proofs. -/

theorem mergeSort_pair {α : Type} (le : α → α → Bool) (a b : α) :
    [a, b].mergeSort le = if le a b then [a, b] else [b, a] := by
  rw [List.mergeSort]
  simp [List.splitInTwo, List.merge]

theorem combine_effects_singleton (x : PolicyEffect × String × Int) :
    combine_effects [x] = x.1 := by
  simp [combine_effects]

theorem combine_effects_pair (x y : PolicyEffect × String × Int) :
    combine_effects [x, y] = if y.2.2 ≤ x.2.2 then x.1 else y.1 := by
  rcases x with ⟨xe, xn, xp⟩
  rcases y with ⟨ye, yn, yp⟩
  rw [combine_effects, mergeSort_pair]
  by_cases h : yp ≤ xp <;> simp [h]

theorem check_of_emergency (eng : Engine) (now inst : Int) (req : AuthorizationRequest)
    (hval : req.context.validate = .ok ())
    (hem : check_emergency_access eng.config req = .ok true) :
    check eng now inst req =
      .ok (mkResponse .EmergencyAccess ["Emergency access granted"] [] none [] 1
        req.request_id) := by
  unfold check
  rw [hval, hem]

theorem check_of_policy_deny (eng : Engine) (now inst : Int) (req : AuthorizationRequest)
    (pd : PolicyDecision)
    (hval : req.context.validate = .ok ())
    (hem : check_emergency_access eng.config req = .ok false)
    (hpol : evaluate_policies eng.policies req.context = .ok pd)
    (hd : pd.decision = .Deny) :
    check eng now inst req =
      .ok (mkResponse .Deny pd.reasons [] none [] pd.confidence req.request_id) := by
  unfold check
  rw [hval, hem, hpol]
  simp only []
  rw [hd]

theorem check_of_policy_auditOnly (eng : Engine) (now inst : Int) (req : AuthorizationRequest)
    (pd : PolicyDecision)
    (hval : req.context.validate = .ok ())
    (hem : check_emergency_access eng.config req = .ok false)
    (hpol : evaluate_policies eng.policies req.context = .ok pd)
    (hd : pd.decision = .AuditOnly) :
    check eng now inst req =
      match findFirstRelation eng now inst req.resource req.subject
          (get_required_relations req.action req.resource) with
      | .error e => .error e
      | .ok (some relation) =>
        .ok (mkResponse .Allow
          ["Access granted via " ++ relation.str ++ " relationship"] [] none []
          (8/10) req.request_id)
      | .ok none =>
        .ok (mkResponse .Deny ["No valid relationship found"] [] none [] (9/10)
          req.request_id) := by
  unfold check
  rw [hval, hem, hpol]
  simp only []
  rw [hd]

theorem evalPoliciesLoop_of_none_applicable (ctx : RequestContext) :
    ∀ (ps : List HealthcarePolicy) (acc : EvalAcc),
      (∀ p ∈ ps, p.is_active = true → allConditionsMet p ctx = .ok false) →
      evalPoliciesLoop ctx ps acc = .ok acc := by
  intro ps
  induction ps with
  | nil => intro acc _; rfl
  | cons p rest ih =>
    intro acc h
    have hrest : ∀ q ∈ rest, q.is_active = true → allConditionsMet q ctx = .ok false :=
      fun q hq hqa => h q (List.mem_cons_of_mem p hq) hqa
    by_cases hact : p.is_active = true
    · have hcond := h p (List.mem_cons_self p rest) hact
      unfold evalPoliciesLoop
      simp only [hact, hcond, Bool.not_true, Bool.false_eq_true, if_false]
      exact ih acc hrest
    · unfold evalPoliciesLoop
      simp only [Bool.not_eq_true] at hact
      simp only [hact, Bool.not_false, if_true]
      exact ih acc hrest

theorem evaluate_policies_of_none_applicable (policies : List HealthcarePolicy)
    (ctx : RequestContext)
    (h : ∀ p ∈ policies, p.is_active = true → allConditionsMet p ctx = .ok false) :
    evaluate_policies policies ctx = .ok ⟨.Deny, [], [], [], 1/10, [], none⟩ := by
  unfold evaluate_policies
  rw [evalPoliciesLoop_of_none_applicable ctx policies EvalAcc.init h]
  rfl

/-- C1 (counterexample): in the spec's example scenario taken literally —
subject `User(U1)`, action `Read`, resource `Patient(P1)`, a valid
non-emergency context, NO policies configured, and the single active tuple
`{Patient(P1), CareTeamMember, User(U1)}` — `check` returns `Deny` with
`allowed = false`, not `Allow`: with an empty policy list no policy applies,
`evaluate_policies` returns `Deny`, and relationship resolution is only ever
reached through an applying `AuditOnly` policy. -/
theorem claim1_counterexample :
    (check engNoPolicies 0 0 req0).map (fun r => (r.decision, r.allowed)) =
      .ok (.Deny, false) ∧
    AccessDecision.Deny ≠ AccessDecision.Allow :=
  ⟨rfl, by decide⟩

/-- C1 (amended): same subject/action/resource/tuple, but with one active,
always-applying policy of effect `AuditOnly` configured (the only way the
code reaches relationship resolution) instead of no policies: `check` returns
`Allow`, `allowed = true`, confidence 0.8, with the reason
`Access granted via care_team_member relationship`. -/
theorem claim1_amended_audit_only_allows :
    (check engAuditOnly 0 0 req0).map
        (fun r => (r.decision, r.allowed, r.reasons, r.confidence)) =
      .ok (.Allow, true, ["Access granted via care_team_member relationship"], 8/10) := by
  have hloop : evalPoliciesLoop ctx0 engAuditOnly.policies EvalAcc.init =
      .ok ⟨["p-audit"], [(.AuditOnly, "Audit Everything", 50)],
        ["Policy " ++ sq ++ "Audit Everything" ++ sq ++ " applied"], [], [], none⟩ := by rfl
  have hpol : evaluate_policies engAuditOnly.policies req0.context =
      .ok ⟨.AuditOnly, ["p-audit"],
        ["Policy " ++ sq ++ "Audit Everything" ++ sq ++ " applied"], [], 9/10, [], none⟩ := by
    show evaluate_policies engAuditOnly.policies ctx0 = _
    rw [evaluate_policies, hloop]
    simp [combine_effects_singleton]
  rw [check_of_policy_auditOnly engAuditOnly 0 0 req0 _ rfl rfl hpol rfl]
  rfl

/-- C2: for every request whose context validates and whose emergency check
comes back false, if no active policy has all of its conditions satisfied,
then `evaluate_policies` returns `Deny` with confidence 0.1 (= 1/10) and
`check` returns decision `Deny` with `allowed = false` — for every state of
the relationship store and cache (both live inside `eng` and are universally
quantified, and the `Deny` path never consults them). -/
theorem claim2_fail_closed_deny (eng : Engine) (now inst : Int) (req : AuthorizationRequest)
    (hval : req.context.validate = .ok ())
    (hem : check_emergency_access eng.config req = .ok false)
    (hnone : ∀ p ∈ eng.policies, p.is_active = true →
      allConditionsMet p req.context = .ok false) :
    evaluate_policies eng.policies req.context = .ok ⟨.Deny, [], [], [], 1/10, [], none⟩ ∧
    check eng now inst req = .ok (mkResponse .Deny [] [] none [] (1/10) req.request_id) ∧
    (mkResponse .Deny [] [] none [] (1/10) req.request_id).allowed = false := by
  have hpol := evaluate_policies_of_none_applicable eng.policies req.context hnone
  refine ⟨hpol, ?_, rfl⟩
  exact check_of_policy_deny eng now inst req _ hval hem hpol rfl

/-- C2 (witness): the concrete engine whose single active policy is gated on
`AfterHours` while the context is at 10:00 — no policy applies, and `check`
denies. -/
theorem claim2_witness :
    ctx0.validate = .ok () ∧
    check_emergency_access engAfterHours.config req0 = .ok false ∧
    check engAfterHours 0 0 req0 = .ok (mkResponse .Deny [] [] none [] (1/10) none) := by
  have hnone : ∀ p ∈ engAfterHours.policies, p.is_active = true →
      allConditionsMet p req0.context = .ok false := by
    intro p hp _
    have hp' : p = afterHoursAllowPolicy := by simpa [engAfterHours] using hp
    subst hp'
    rfl
  exact ⟨rfl, rfl, (claim2_fail_closed_deny engAfterHours 0 0 req0 rfl rfl hnone).2.1⟩

/-- C5 (counterexample): with exactly one active, non-expired
`{Department(D1), DepartmentHead, User(U1)}` tuple in the store and no
`DepartmentMember` tuple, `has_relationship(Department(D1), DepartmentMember,
User(U1))` returns `Ok(false)` — not true-by-inheritance as claimed; even
full resolution of `DepartmentMember` returns false. -/
theorem claim5_counterexample :
    Engine.has_relationship engDH 0 (.Department ("D1")) .DepartmentMember (.User ("U1")) =
      .ok false ∧
    (resolve_relationships engDH 0 0 (.Department ("D1")) (.User ("U1"))
        .DepartmentMember [] 0).map (fun r => r.1) = .ok false :=
  ⟨rfl, rfl⟩

/-- C5 (amended): `has_relationship` is a direct storage existence check with
no inheritance step, so with only a `DepartmentHead` tuple it returns
`Ok(false)` for `DepartmentMember` (and `resolve_relationships` for
`DepartmentMember` is also false); the code's inheritance lookup runs in the
opposite direction — `get_parent_relation(DepartmentHead) = DepartmentMember`
— so it is a `DepartmentMember` tuple that satisfies a resolution query for
`DepartmentHead`. -/
theorem claim5_amended_direct_check :
    (∀ (eng : Engine) (now : Int) (object : Resource) (relation : HealthcareRelation)
        (subject : Subject),
      Engine.has_relationship eng now object relation subject =
        .ok (Storage.has_relationship eng.db now object relation subject)) ∧
    Engine.has_relationship engDH 0 (.Department ("D1")) .DepartmentMember (.User ("U1")) =
      .ok false ∧
    (resolve_relationships engDH 0 0 (.Department ("D1")) (.User ("U1"))
        .DepartmentMember [] 0).map (fun r => r.1) = .ok false ∧
    (resolve_relationships engDM 0 0 (.Department ("D1")) (.User ("U1"))
        .DepartmentHead [] 0).map (fun r => r.1) = .ok true :=
  ⟨fun _ _ _ _ _ => rfl, rfl, rfl, rfl⟩

/-- C7: whenever `resolve_relationships` is invoked on a triple whose key is
already in the accumulated visited set (and the depth guard has not already
fired), it returns the `CircularDependency` error — never a silent false. -/
theorem claim7_cycle_detection (eng : Engine) (now inst : Int) (resource : Resource)
    (subject : Subject) (relation : HealthcareRelation) (visited : List String) (depth : Nat)
    (hdepth : depth < eng.config.max_relation_depth)
    (hvis : visited.contains (tripleKey resource relation subject) = true) :
    resolve_relationships eng now inst resource subject relation visited depth =
      .error .CircularDependency := by
  unfold resolve_relationships
  obtain ⟨k, hk⟩ := Nat.exists_eq_succ_of_ne_zero (Nat.sub_ne_zero_of_lt hdepth)
  rw [hk]
  have hmem : tripleKey resource relation subject ∈ visited := by simpa using hvis
  simp [resolveGo, hmem]

/-- C7 (witness): revisiting `{Patient(P1), CareTeamMember, User(U1)}` at
depth 0 under the default configuration yields `CircularDependency`. -/
theorem claim7_witness :
    0 < engNoPolicies.config.max_relation_depth ∧
    resolve_relationships engNoPolicies 0 0 (.Patient ("P1")) (.User ("U1")) .CareTeamMember
        [tripleKey (.Patient ("P1")) .CareTeamMember (.User ("U1"))] 0 =
      .error .CircularDependency :=
  ⟨by decide,
    claim7_cycle_detection engNoPolicies 0 0 (.Patient ("P1")) (.User ("U1")) .CareTeamMember
      [tripleKey (.Patient ("P1")) .CareTeamMember (.User ("U1"))] 0 (by decide) (by decide)⟩

/-- C8: `resolve_relationships` invoked at depth ≥ `max_relation_depth`
returns the `MaxDepthExceeded` error, for every engine state — in particular
the result does not depend on the store or the cache (both are arbitrary
inside `eng`), capturing that the guard fires before any cache or store
lookup; the Lean model is a total function, witnessing termination of
resolution for every store state. -/
theorem claim8_depth_bound (eng : Engine) (now inst : Int) (resource : Resource)
    (subject : Subject) (relation : HealthcareRelation) (visited : List String) (depth : Nat)
    (hdepth : eng.config.max_relation_depth ≤ depth) :
    resolve_relationships eng now inst resource subject relation visited depth =
      .error .MaxDepthExceeded := by
  unfold resolve_relationships
  rw [Nat.sub_eq_zero_of_le hdepth]
  rfl

/-- C8 (witness): at depth 10 with the default `max_relation_depth = 10`,
resolution stops with `MaxDepthExceeded`. -/
theorem claim8_witness :
    engNoPolicies.config.max_relation_depth ≤ 10 ∧
    resolve_relationships engNoPolicies 0 0 (.Patient ("P1")) (.User ("U1")) .CareTeamMember
        [] 10 = .error .MaxDepthExceeded :=
  ⟨by decide,
    claim8_depth_bound engNoPolicies 0 0 (.Patient ("P1")) (.User ("U1")) .CareTeamMember
      [] 10 (by decide)⟩

theorem check_emergency_access_ok (cfg : AuthorizationConfig) (req : AuthorizationRequest)
    (e : EmergencyContext)
    (hen : cfg.enable_emergency_access = true)
    (hemc : req.context.emergency = some e)
    (hie : e.is_emergency = true)
    (hjust : e.justification.isSome = true)
    (happr : e.approval_required = true → e.approved_by.isSome = true)
    (hexp : ∀ t, e.expires_at = some t → req.context.timestamp.epoch < t.epoch) :
    check_emergency_access cfg req = .ok true := by
  obtain ⟨j, hj⟩ := Option.isSome_iff_exists.mp hjust
  have hnapp : (e.approval_required && e.approved_by.isNone) = false := by
    by_cases hap : e.approval_required = true
    · obtain ⟨a, ha⟩ := Option.isSome_iff_exists.mp (happr hap)
      simp [ha]
    · simp only [Bool.not_eq_true] at hap
      simp [hap]
  unfold check_emergency_access
  simp only [hen, hemc, hie, hj, hnapp, Bool.not_true, Bool.false_eq_true, if_false,
    Option.isNone_some, Bool.and_false, ite_false]
  cases he : e.expires_at with
  | none => simp
  | some t =>
    have := hexp t he
    simp [not_le.mpr this]

/-- C6: for every request whose context validates and which carries an
emergency context with `is_emergency`, a justification, approval whenever
required, and an expiry (if any) strictly after the context timestamp, and
with emergency access enabled in the configuration (the default), `check`
returns `EmergencyAccess` with `allowed = true` and confidence 1.0 — for
every policy list and relationship store (both arbitrary inside `eng`; the
emergency branch returns before `evaluate_policies` or
`resolve_relationships` is consulted, so an applying Deny policy changes
nothing). -/
theorem claim6_emergency_override (eng : Engine) (now inst : Int)
    (req : AuthorizationRequest) (e : EmergencyContext)
    (hen : eng.config.enable_emergency_access = true)
    (hemc : req.context.emergency = some e)
    (hie : e.is_emergency = true)
    (hjust : e.justification.isSome = true)
    (happr : e.approval_required = true → e.approved_by.isSome = true)
    (hexp : ∀ t, e.expires_at = some t → req.context.timestamp.epoch < t.epoch)
    (hval : req.context.validate = .ok ()) :
    check eng now inst req =
      .ok (mkResponse .EmergencyAccess ["Emergency access granted"] [] none [] 1
        req.request_id) ∧
    (mkResponse .EmergencyAccess ["Emergency access granted"] [] none [] 1
      req.request_id).allowed = true ∧
    (mkResponse .EmergencyAccess ["Emergency access granted"] [] none [] 1
      req.request_id).confidence = 1 := by
  have hem := check_emergency_access_ok eng.config req e hen hemc hie hjust happr hexp
  exact ⟨check_of_emergency eng now inst req hval hem, rfl, rfl⟩

/-- C6 (witness): a declared, justified emergency at 10:00 expiring later,
against an engine whose only policy is an always-applying Deny of priority
99 — `check` still returns `EmergencyAccess`. -/
theorem claim6_witness :
    ctxEm.validate = .ok () ∧
    policyApplies denyAllPolicy ctxEm = true ∧
    denyAllPolicy.effect = .Deny ∧
    check engDenyAll 0 0 reqEm =
      .ok (mkResponse .EmergencyAccess ["Emergency access granted"] [] none [] 1 none) := by
  refine ⟨rfl, rfl, rfl, ?_⟩
  have hexp : ∀ t, emCtx.expires_at = some t → reqEm.context.timestamp.epoch < t.epoch := by
    intro t ht
    have h2 : (⟨2000, 11, 0, 0, .Mon⟩ : Timestamp) = t :=
      Option.some.inj (show some (⟨2000, 11, 0, 0, .Mon⟩ : Timestamp) = some t from ht)
    subst h2
    decide
  exact (claim6_emergency_override engDenyAll 0 0 reqEm emCtx rfl rfl rfl rfl
    (by decide) hexp rfl).1

theorem defaultTrueCond_eval (c : PolicyCondition) (ctx : RequestContext)
    (h : defaultTrueCond c = true) : evaluate_condition c ctx = .ok true := by
  cases c <;> first | rfl | simp [defaultTrueCond] at h

theorem conditionsAllMet_of_defaultTrue :
    ∀ (conds : List PolicyCondition) (ctx : RequestContext),
      (∀ c ∈ conds, defaultTrueCond c = true) → conditionsAllMet conds ctx = .ok true := by
  intro conds
  induction conds with
  | nil => intro ctx _; rfl
  | cons c rest ih =>
    intro ctx h
    unfold conditionsAllMet
    rw [defaultTrueCond_eval c ctx (h c (List.mem_cons_self c rest))]
    exact ih ctx fun d hd => h d (List.mem_cons_of_mem c hd)

/-- C3: `evaluate_condition` returns `Ok(true)` for every context and every
condition kind the implementation does not explicitly model — `DateRange`,
`AllowedIpRanges`, `RequireRole`, `RequireRelation`, `DepartmentMembership`,
`MinimumClearanceLevel`, `MultiFactorAuthentication`, `ResourceType`,
`ResourceOwnership`, `DataClassification`, `SecondaryApproval`,
`ComplianceFlag`, `WorkflowStep`, `WorkflowPriority`, `Custom{key,value}` —
so an active policy gated only by such conditions applies to every context
(fail-open). -/
theorem claim3_unmodeled_conditions_true :
    (∀ (ctx : RequestContext) (a b : String),
      evaluate_condition (.DateRange a b) ctx = .ok true) ∧
    (∀ (ctx : RequestContext) (rs : List String),
      evaluate_condition (.AllowedIpRanges rs) ctx = .ok true) ∧
    (∀ (ctx : RequestContext) (r : String),
      evaluate_condition (.RequireRole r) ctx = .ok true) ∧
    (∀ (ctx : RequestContext) (r : String),
      evaluate_condition (.RequireRelation r) ctx = .ok true) ∧
    (∀ (ctx : RequestContext) (d : String),
      evaluate_condition (.DepartmentMembership d) ctx = .ok true) ∧
    (∀ (ctx : RequestContext) (n : Nat),
      evaluate_condition (.MinimumClearanceLevel n) ctx = .ok true) ∧
    (∀ (ctx : RequestContext),
      evaluate_condition .MultiFactorAuthentication ctx = .ok true) ∧
    (∀ (ctx : RequestContext) (t : String),
      evaluate_condition (.ResourceType t) ctx = .ok true) ∧
    (∀ (ctx : RequestContext),
      evaluate_condition .ResourceOwnership ctx = .ok true) ∧
    (∀ (ctx : RequestContext) (c : String),
      evaluate_condition (.DataClassification c) ctx = .ok true) ∧
    (∀ (ctx : RequestContext),
      evaluate_condition .SecondaryApproval ctx = .ok true) ∧
    (∀ (ctx : RequestContext) (f : String),
      evaluate_condition (.ComplianceFlag f) ctx = .ok true) ∧
    (∀ (ctx : RequestContext) (w : String),
      evaluate_condition (.WorkflowStep w) ctx = .ok true) ∧
    (∀ (ctx : RequestContext) (w : String),
      evaluate_condition (.WorkflowPriority w) ctx = .ok true) ∧
    (∀ (ctx : RequestContext) (k v : String),
      evaluate_condition (.Custom k v) ctx = .ok true) ∧
    (∀ (p : HealthcarePolicy) (ctx : RequestContext),
      p.is_active = true → (∀ c ∈ p.conditions, defaultTrueCond c = true) →
      policyApplies p ctx = true) := by
  refine ⟨fun _ _ _ => rfl, fun _ _ => rfl, fun _ _ => rfl, fun _ _ => rfl, fun _ _ => rfl,
    fun _ _ => rfl, fun _ => rfl, fun _ _ => rfl, fun _ => rfl, fun _ _ => rfl, fun _ => rfl,
    fun _ _ => rfl, fun _ _ => rfl, fun _ _ => rfl, fun _ _ _ => rfl, ?_⟩
  intro p ctx hact hconds
  unfold policyApplies allConditionsMet
  rw [hact, conditionsAllMet_of_defaultTrue p.conditions ctx hconds]
  rfl

/-- C3 (witness): a policy gated only on `Custom`, `SecondaryApproval` and
`RequireRole` conditions applies to the plain context `ctx0`. -/
theorem claim3_witness :
    unmodeledPolicy.is_active = true ∧
    (∀ c ∈ unmodeledPolicy.conditions, defaultTrueCond c = true) ∧
    policyApplies unmodeledPolicy ctx0 = true :=
  ⟨rfl, by decide,
    claim3_unmodeled_conditions_true.2.2.2.2.2.2.2.2.2.2.2.2.2.2.2
      unmodeledPolicy ctx0 rfl (by decide)⟩

theorem rowsToSubjects_mem :
    ∀ (rows : List DbRelationshipRow) (subjects : List Subject),
      rowsToSubjects rows = .ok subjects →
      ∀ s ∈ subjects, ∃ row ∈ rows,
        parts_to_subject row.subject_type row.subject_id = .ok s := by
  intro rows
  induction rows with
  | nil =>
    intro subjects h s hs
    injection h with h
    subst h
    exact absurd hs (List.not_mem_nil s)
  | cons row rest ih =>
    intro subjects h s hs
    unfold rowsToSubjects at h
    cases hp : parts_to_subject row.subject_type row.subject_id with
    | error e => rw [hp] at h; exact Except.noConfusion h
    | ok subj =>
      rw [hp] at h
      cases hr : rowsToSubjects rest with
      | error e => rw [hr] at h; exact Except.noConfusion h
      | ok rest_subjects =>
        rw [hr] at h
        injection h with h
        subst h
        rcases List.mem_cons.mp hs with heq | hmem
        · subst heq
          exact ⟨row, List.mem_cons_self row rest, hp⟩
        · obtain ⟨r2, hr2, hp2⟩ := ih rest_subjects hr s hmem
          exact ⟨r2, List.mem_cons_of_mem row hr2, hp2⟩

theorem rowMatches_false_of_expired (row : DbRelationshipRow) (now t : Int)
    (hexp : row.expires_at = some t) (hle : t ≤ now) :
    ∀ rt rid rel, rowMatches row now rt rid rel = false := by
  intro rt rid rel
  unfold rowMatches expiresOk
  rw [hexp]
  simp [not_lt.mpr hle]

theorem rowMatches_active_unexpired (row : DbRelationshipRow) (now : Int)
    (rt rid rel : String) (h : rowMatches row now rt rid rel = true) :
    row.is_active = true ∧
      (row.expires_at = none ∨ ∃ t, row.expires_at = some t ∧ now < t) := by
  simp only [rowMatches, Bool.and_eq_true] at h
  refine ⟨h.1.2, ?_⟩
  have he := h.2
  cases hx : row.expires_at with
  | none => exact Or.inl rfl
  | some t =>
    rw [hx] at he
    simp only [expiresOk, decide_eq_true_eq] at he
    exact Or.inr ⟨t, rfl, he⟩

/-- C9: a relationship row whose `expires_at` is at or before the query time
is logically absent: prepending it changes neither `has_relationship` nor
`find_direct_relationships` (the query behind `expand`); both queries select
only rows with `is_active = true` and `expires_at` NULL or strictly in the
future; and concretely, the `{Patient(P1), CareTeamMember, User(U1)}` row
expiring at time 5 (never removed: `is_active` still true) is visible at time
4 but gone from both queries at time 10. -/
theorem claim9_expiry_excluded :
    (∀ (row : DbRelationshipRow) (db : List DbRelationshipRow) (now t : Int),
      row.expires_at = some t → t ≤ now →
      (∀ (o : Resource) (r : HealthcareRelation) (s : Subject),
        Storage.has_relationship (row :: db) now o r s =
          Storage.has_relationship db now o r s) ∧
      (∀ (o : Resource) (r : HealthcareRelation),
        Storage.find_direct_relationships (row :: db) now o r =
          Storage.find_direct_relationships db now o r)) ∧
    (∀ (db : List DbRelationshipRow) (now : Int) (o : Resource)
        (r : HealthcareRelation) (s : Subject),
      Storage.has_relationship db now o r s = true →
      ∃ row ∈ db, row.is_active = true ∧
        (row.expires_at = none ∨ ∃ t, row.expires_at = some t ∧ now < t)) ∧
    (∀ (db : List DbRelationshipRow) (now : Int) (o : Resource)
        (r : HealthcareRelation) (subjects : List Subject) (s : Subject),
      Storage.find_direct_relationships db now o r = .ok subjects → s ∈ subjects →
      ∃ row ∈ db, row.is_active = true ∧
        (row.expires_at = none ∨ ∃ t, row.expires_at = some t ∧ now < t)) ∧
    Storage.has_relationship [rowExpired] 4 (.Patient ("P1")) .CareTeamMember
      (.User ("U1")) = true ∧
    Storage.has_relationship [rowExpired] 10 (.Patient ("P1")) .CareTeamMember
      (.User ("U1")) = false ∧
    Storage.find_direct_relationships [rowExpired] 10 (.Patient ("P1"))
      .CareTeamMember = .ok [] := by
  refine ⟨?_, ?_, ?_, rfl, rfl, ?_⟩
  · intro row db now t hexp hle
    have hmf := rowMatches_false_of_expired row now t hexp hle
    constructor
    · intro o r s
      unfold Storage.has_relationship
      simp [List.any_cons, hmf]
    · intro o r
      unfold Storage.find_direct_relationships
      rw [List.filter_cons_of_neg (by simp [hmf])]
  · intro db now o r s h
    unfold Storage.has_relationship at h
    rw [List.any_eq_true] at h
    obtain ⟨row, hmem, hrow⟩ := h
    simp only [Bool.and_eq_true] at hrow
    obtain ⟨hact, hexp⟩ := rowMatches_active_unexpired row now _ _ _ hrow.1.1
    exact ⟨row, hmem, hact, hexp⟩
  · intro db now o r subjects s hfind hs
    unfold Storage.find_direct_relationships at hfind
    obtain ⟨row, hrowmem, _⟩ := rowsToSubjects_mem _ _ hfind s hs
    have hmem2 : row ∈ db.filter fun row =>
        rowMatches row now (resource_to_parts o).1 (resource_to_parts o).2 r.str :=
      (List.mergeSort_perm _ _).mem_iff.mp hrowmem
    obtain ⟨hmem, hmatch⟩ := List.mem_filter.mp hmem2
    obtain ⟨hact, hexp⟩ := rowMatches_active_unexpired row now _ _ _ hmatch
    exact ⟨row, hmem, hact, hexp⟩
  · unfold Storage.find_direct_relationships
    rw [show (List.filter
        (fun row => rowMatches row 10 (resource_to_parts (.Patient ("P1"))).1
          (resource_to_parts (.Patient ("P1"))).2 HealthcareRelation.CareTeamMember.str)
        [rowExpired]) = [] from rfl, List.mergeSort_nil]
    rfl

/-- C9 (witness): the transparency of expired rows and the selection
invariant, each applied at the concrete expired fixture row. -/
theorem claim9_witness :
    rowExpired.expires_at = some 5 ∧ (5 : Int) ≤ 10 ∧
    Storage.has_relationship [rowExpired, rowCTM] 10 (.Patient ("P1")) .CareTeamMember
        (.User ("U1")) =
      Storage.has_relationship [rowCTM] 10 (.Patient ("P1")) .CareTeamMember
        (.User ("U1")) ∧
    (∃ row ∈ [rowCTM], row.is_active = true ∧
      (row.expires_at = none ∨ ∃ t, row.expires_at = some t ∧ (10:Int) < t)) := by
  refine ⟨rfl, by norm_num, ?_, ?_⟩
  · exact ((claim9_expiry_excluded.1 rowExpired [rowCTM] 10 5 rfl (by norm_num)).1
      (.Patient ("P1")) .CareTeamMember (.User ("U1")))
  · exact claim9_expiry_excluded.2.1 [rowCTM] 10 (.Patient ("P1")) .CareTeamMember
      (.User ("U1")) rfl

theorem computedRelationshipStep_false (resource : Resource) (subject : Subject)
    (relation : HealthcareRelation) :
    computedRelationshipStep resource subject relation = .ok false := by
  cases relation <;> first | rfl | (cases subject <;> rfl)

theorem resolveGo_true_reaches (eng : Engine) (now inst : Int) (hcache : eng.cache = []) :
    ∀ (fuel : Nat) (resource : Resource) (subject : Subject)
      (relation : HealthcareRelation) (visited vis2 : List String),
      resolveGo eng now inst fuel resource subject relation visited = .ok (true, vis2) →
      ∃ r2, ParentReachable relation r2 ∧
        Storage.has_relationship eng.db now resource r2 subject = true := by
  intro fuel
  induction fuel with
  | zero => intro _ _ _ _ _ h; exact Except.noConfusion h
  | succ k ih =>
    intro resource subject relation visited vis2 h
    unfold resolveGo at h
    rw [hcache] at h
    by_cases hv : visited.contains (tripleKey resource relation subject) = true
    · rw [if_pos hv] at h
      exact Except.noConfusion h
    · rw [if_neg hv] at h
      simp only [cacheLookup, List.find?_nil, ite_self] at h
      by_cases hd : Storage.has_relationship eng.db now resource relation subject = true
      · exact ⟨relation, .refl relation, hd⟩
      · rw [if_neg hd] at h
        cases hp : get_parent_relation relation with
        | none =>
          rw [hp, computedRelationshipStep_false] at h
          simp at h
        | some parent =>
          rw [hp] at h
          simp only [] at h
          cases hr : resolveGo eng now inst k resource subject parent
              (tripleKey resource relation subject :: visited) with
          | error e => rw [hr] at h; exact Except.noConfusion h
          | ok pr =>
            rw [hr] at h
            rcases pr with ⟨b, vis3⟩
            cases b with
            | true =>
              obtain ⟨r2, hreach, hhas⟩ := ih resource subject parent _ _ hr
              exact ⟨r2, .step hp hreach, hhas⟩
            | false =>
              rw [computedRelationshipStep_false] at h
              simp at h

/-- C10: `check_department_membership` and `check_care_team_membership`
return `Ok(false)` for every resource and user id; consequently (starting
from an empty relation cache) `resolve_relationships` returns true only when
an active, non-expired tuple exists in the store for the requested relation
or for a relation reachable along the static parent chain
(`get_parent_relation`) — the computed/derived-relationship step never
grants access, for every store state. -/
theorem claim10_no_computed_grants :
    (∀ (resource : Resource) (user_id : Uuid),
      check_department_membership resource user_id = .ok false ∧
      check_care_team_membership resource user_id = .ok false) ∧
    (∀ (eng : Engine) (now inst : Int) (resource : Resource) (subject : Subject)
        (relation : HealthcareRelation) (visited vis2 : List String) (depth : Nat),
      eng.cache = [] →
      resolve_relationships eng now inst resource subject relation visited depth =
        .ok (true, vis2) →
      ∃ r2, ParentReachable relation r2 ∧
        Storage.has_relationship eng.db now resource r2 subject = true) := by
  refine ⟨fun _ _ => ⟨rfl, rfl⟩, ?_⟩
  intro eng now inst resource subject relation visited vis2 depth hcache h
  exact resolveGo_true_reaches eng now inst hcache _ resource subject relation visited vis2 h

/-- C10 (witness): on the engine holding only the `DepartmentMember` tuple,
resolving `DepartmentHead` succeeds, and the theorem locates a reachable
relation (here, the parent `DepartmentMember`) with a direct tuple. -/
theorem claim10_witness :
    check_department_membership (.Patient ("P1")) ("U1") = .ok false ∧
    (∃ r2, ParentReachable .DepartmentHead r2 ∧
      Storage.has_relationship engDM.db 0 (.Department ("D1")) r2 (.User ("U1")) = true) :=
  ⟨(claim10_no_computed_grants.1 (.Patient ("P1")) ("U1")).1,
    claim10_no_computed_grants.2 engDM 0 0 (.Department ("D1")) (.User ("U1"))
      .DepartmentHead []
      [tripleKey (.Department ("D1")) .DepartmentMember (.User ("U1")),
       tripleKey (.Department ("D1")) .DepartmentHead (.User ("U1"))]
      0 rfl (by rfl)⟩

theorem applyEffectExtras_applicable (e : PolicyEffect) (ctx : RequestContext)
    (a a' : EvalAcc) (h : applyEffectExtras e ctx a = .ok a') :
    a'.applicable_effects = a.applicable_effects := by
  cases e with
  | Conditional conds =>
    unfold applyEffectExtras at h
    simp only [] at h
    cases hc : conditionalReqs conds ctx with
    | error e2 => rw [hc] at h; exact Except.noConfusion h
    | ok reqs => rw [hc] at h; injection h with h; rw [← h]
  | Deny => injection h with h; rw [← h]
  | Allow => injection h with h; rw [← h]
  | RequireApproval => injection h with h; rw [← h]
  | RequireSecondFactor => injection h with h; rw [← h]
  | AuditOnly => injection h with h; rw [← h]
  | TimeLimit seconds => injection h with h; rw [← h]
  | Restrict rl => injection h with h; rw [← h]

theorem evalPoliciesLoop_effects (ctx : RequestContext) :
    ∀ (ps : List HealthcarePolicy) (acc acc' : EvalAcc),
      evalPoliciesLoop ctx ps acc = .ok acc' →
      acc'.applicable_effects = acc.applicable_effects ++
        (ps.filter (fun p => policyApplies p ctx)).map
          (fun p => (p.effect, p.name, p.priority)) := by
  intro ps
  induction ps with
  | nil =>
    intro acc acc' h
    injection h with h
    subst h
    simp
  | cons p rest ih =>
    intro acc acc' h
    unfold evalPoliciesLoop at h
    by_cases hact : p.is_active = true
    · simp only [hact, Bool.not_true, Bool.false_eq_true, if_false] at h
      cases hc : allConditionsMet p ctx with
      | error e => rw [hc] at h; exact Except.noConfusion h
      | ok met =>
        rw [hc] at h
        cases met with
        | false =>
          simp only [] at h
          rw [ih acc acc' h, List.filter_cons_of_neg (by simp [policyApplies, hact, hc])]
        | true =>
          simp only [] at h
          generalize hacc1 : ({ acc with
            applicable_policies := acc.applicable_policies ++ [p.id],
            applicable_effects :=
              acc.applicable_effects ++ [(p.effect, p.name, p.priority)],
            reasons := acc.reasons ++
              ["Policy " ++ sq ++ p.name ++ sq ++ " applied"] } : EvalAcc) = acc1 at h
          cases hx : applyEffectExtras p.effect ctx acc1 with
          | error e => rw [hx] at h; exact Except.noConfusion h
          | ok acc2 =>
            rw [hx] at h
            simp only [] at h
            have hpres := applyEffectExtras_applicable p.effect ctx acc1 acc2 hx
            have happ : policyApplies p ctx = true := by simp [policyApplies, hact, hc]
            rw [ih acc2 acc' h, hpres, ← hacc1,
              List.filter_cons_of_pos (by simp [happ])]
            simp
    · have hact2 : p.is_active = false := by simpa using hact
      simp only [hact2, Bool.not_false, if_true] at h
      rw [ih acc acc' h, List.filter_cons_of_neg (by simp [policyApplies, hact2])]

theorem combine_effects_spec (effects : List (PolicyEffect × String × Int))
    (hne : effects ≠ []) :
    ∃ x ∈ effects, combine_effects effects = x.1 ∧ ∀ y ∈ effects, y.2.2 ≤ x.2.2 := by
  have htrans : ∀ (a b c : PolicyEffect × String × Int),
      (fun a b => decide (b.2.2 ≤ a.2.2)) a b = true →
      (fun a b => decide (b.2.2 ≤ a.2.2)) b c = true →
      (fun a b => decide (b.2.2 ≤ a.2.2)) a c = true := by
    intro a b c hab hbc
    simp only [decide_eq_true_eq] at hab hbc ⊢
    exact le_trans hbc hab
  have htotal : ∀ (a b : PolicyEffect × String × Int),
      ((fun a b => decide (b.2.2 ≤ a.2.2)) a b ||
        (fun a b => decide (b.2.2 ≤ a.2.2)) b a) = true := by
    intro a b
    simp only [Bool.or_eq_true, decide_eq_true_eq]
    exact le_total b.2.2 a.2.2
  have hperm := List.mergeSort_perm effects (fun a b => decide (b.2.2 ≤ a.2.2))
  have hsorted := List.sorted_mergeSort htrans htotal effects
  have hne2 : effects.mergeSort (fun a b => decide (b.2.2 ≤ a.2.2)) ≠ [] := by
    intro h0
    have h1 : ([] : List (PolicyEffect × String × Int)).Perm effects := h0 ▸ hperm
    exact hne h1.symm.eq_nil
  obtain ⟨⟨xe, xn, xp⟩, xs, hcons⟩ := List.exists_cons_of_ne_nil hne2
  refine ⟨(xe, xn, xp),
    hperm.mem_iff.mp (hcons ▸ List.mem_cons_self (xe, xn, xp) xs), ?_, ?_⟩
  · unfold combine_effects
    rw [hcons]
    rfl
  · intro y hy
    have hy2 : y ∈ (xe, xn, xp) :: xs := hcons ▸ hperm.mem_iff.mpr hy
    rcases List.mem_cons.mp hy2 with heq | hmem
    · exact le_of_eq (congrArg (fun z => z.2.2) heq)
    · have hrel := (List.pairwise_cons.mp (hcons ▸ hsorted)).1 y hmem
      exact of_decide_eq_true hrel

/-- C4: among the active policies whose conditions all hold for a context,
`evaluate_policies` returns as final decision the effect of an applying
policy of maximal priority (stable descending sort, head effect wins); and
concretely, with exactly two applying policies — priority 50 / effect Allow
and priority 90 / effect Deny — the final decision is `Deny` while the
reasons list names both applying policies. -/
theorem claim4_priority_wins :
    (∀ (policies : List HealthcarePolicy) (ctx : RequestContext) (pd : PolicyDecision),
      evaluate_policies policies ctx = .ok pd →
      (∃ p ∈ policies, policyApplies p ctx = true) →
      ∃ p ∈ policies, policyApplies p ctx = true ∧ pd.decision = p.effect ∧
        ∀ q ∈ policies, policyApplies q ctx = true → q.priority ≤ p.priority) ∧
    (∃ pd, evaluate_policies [allowPolicy50, denyPolicy90] ctx0 = .ok pd ∧
      pd.decision = .Deny ∧
      ("Policy " ++ sq ++ "Allow Fifty" ++ sq ++ " applied") ∈ pd.reasons ∧
      ("Policy " ++ sq ++ "Deny Ninety" ++ sq ++ " applied") ∈ pd.reasons) := by
  constructor
  · intro policies ctx pd h hex
    unfold evaluate_policies at h
    cases hl : evalPoliciesLoop ctx policies EvalAcc.init with
    | error e => rw [hl] at h; exact Except.noConfusion h
    | ok acc =>
      rw [hl] at h
      simp only [] at h
      injection h with h
      have heff := evalPoliciesLoop_effects ctx policies EvalAcc.init acc hl
      simp only [EvalAcc.init, List.nil_append] at heff
      obtain ⟨p0, hp0mem, hp0app⟩ := hex
      have hp0f : p0 ∈ policies.filter (fun p => policyApplies p ctx) :=
        List.mem_filter.mpr ⟨hp0mem, hp0app⟩
      have hne : acc.applicable_effects ≠ [] := by
        rw [heff]
        intro h0
        rw [List.map_eq_nil_iff] at h0
        rw [h0] at hp0f
        exact absurd hp0f (List.not_mem_nil p0)
      obtain ⟨x, hxmem, hxeq, hxmax⟩ := combine_effects_spec _ hne
      have hie : acc.applicable_effects.isEmpty = false := by
        cases hae : acc.applicable_effects with
        | nil => exact absurd hae hne
        | cons z zs => rfl
      have hdec : pd.decision = combine_effects acc.applicable_effects := by
        rw [← h]
        simp [hie]
      rw [heff] at hxmem
      obtain ⟨p, hpfil, hptrip⟩ := List.mem_map.mp hxmem
      obtain ⟨hpmem, hpapp⟩ := List.mem_filter.mp hpfil
      refine ⟨p, hpmem, hpapp, ?_, ?_⟩
      · rw [hdec, hxeq, ← hptrip]
      · intro q hqmem hqapp
        have hqf : q ∈ policies.filter (fun p => policyApplies p ctx) :=
          List.mem_filter.mpr ⟨hqmem, hqapp⟩
        have hqeff : (q.effect, q.name, q.priority) ∈ acc.applicable_effects := by
          rw [heff]
          exact List.mem_map_of_mem _ hqf
        have hle := hxmax _ hqeff
        rw [← hptrip] at hle
        exact hle
  · have hloop : evalPoliciesLoop ctx0 [allowPolicy50, denyPolicy90] EvalAcc.init =
        .ok ⟨["p-allow", "p-deny"],
          [(.Allow, "Allow Fifty", 50), (.Deny, "Deny Ninety", 90)],
          ["Policy " ++ sq ++ "Allow Fifty" ++ sq ++ " applied",
           "Policy " ++ sq ++ "Deny Ninety" ++ sq ++ " applied"], [], [], none⟩ := by rfl
    refine ⟨⟨.Deny, ["p-allow", "p-deny"],
      ["Policy " ++ sq ++ "Allow Fifty" ++ sq ++ " applied",
       "Policy " ++ sq ++ "Deny Ninety" ++ sq ++ " applied"], [], 9/10, [], none⟩,
      ?_, rfl, by simp, by simp⟩
    unfold evaluate_policies
    rw [hloop]
    simp only []
    rw [combine_effects_pair]
    norm_num

/-- C4 (witness): both parts of the priority theorem applied to the concrete
pair of applying policies of priorities 50 and 90. -/
theorem claim4_witness :
    (∃ p ∈ [allowPolicy50, denyPolicy90], policyApplies p ctx0 = true) ∧
    (∃ pd, evaluate_policies [allowPolicy50, denyPolicy90] ctx0 = .ok pd ∧
      ∃ p ∈ [allowPolicy50, denyPolicy90], policyApplies p ctx0 = true ∧
        pd.decision = p.effect ∧
        ∀ q ∈ [allowPolicy50, denyPolicy90], policyApplies q ctx0 = true →
          q.priority ≤ p.priority) := by
  have hex : ∃ p ∈ [allowPolicy50, denyPolicy90], policyApplies p ctx0 = true :=
    ⟨allowPolicy50, by simp, rfl⟩
  obtain ⟨pd, hpd, _, _, _⟩ := claim4_priority_wins.2
  exact ⟨hex, pd, hpd, claim4_priority_wins.1 _ ctx0 pd hpd hex⟩

end Hims
